import Mathlib

/-!
Shallow embedding of `src/simple_multi_machine_subscriber.py`, the concurrent
liveness registry and ingestion engine of the machine-status-monitoring
repository.

Modelling conventions:
- A machine record (the per-machine dict built at lines 99-119) is the flat
  structure `Machine`; the nested cpu/memory/storage dicts are flattened into
  prefixed fields.  No operation of the module mutates those nested dicts in
  place (a full report rebinds the whole machine dict), so flattening loses
  no observable behaviour.
- Python dict objects are heap objects referenced from the `machines` dict.
  Aliasing matters here (`machines.copy()` at line 266 is a shallow copy), so
  the registry state `RegState` is a heap `store : List Machine` (addresses
  are indices) plus the dict `machines : List (String × Nat)` mapping a
  machine id to the address of its record, in dict insertion order.
  `machines[machine_id] = dict` rebinds the key to a fresh object
  (`update_mapping` to a fresh address); in-place mutation
  (`machines[mid][key] = v`) writes through the address.
- Timestamps (`datetime.now()`, `total_seconds()`) are integer seconds
  (`Int`); `now - last_seen > offline_threshold` is exact on integers, which
  is what the threshold edge-case claims are about.
- An inbound payload that decodes as a JSON object is `Payload`, a record of
  `Option` fields mirroring exactly the `data.get(...)` chains the subscriber
  performs (e.g. `data.get('cpu', dict()).get('model', 'Unknown')` reads
  `cpu_model`).  `Msg.content = none` models a payload that fails JSON
  decoding (the `json.JSONDecodeError` branch at line 124).  A payload whose
  `timestamp` field is present is never read by the subscriber.
- `print` calls that classify an outcome are modelled as `LogEvent`s emitted
  by the handler, so that "logged/reported as a classified error" is a
  statement about the emitted list.
-/

/-- One machine record: the dict built at lines 99-119 of
`simple_multi_machine_subscriber.py`, with the nested cpu/memory/storage
dicts flattened into prefixed fields. -/
structure Machine where
  hostname : String
  ip_address : String
  cpu_model : String
  cpu_cores : Int
  cpu_usage_percent : Int
  memory_total : String
  memory_available : String
  memory_usage_percent : Int
  storage_total : String
  storage_free : String
  storage_usage_percent : Int
  online_status : String
  last_seen : Int
deriving DecidableEq, Repr

/-- Placeholder used only for out-of-bounds heap reads; every reachable
lookup stays in bounds (see `WF`). -/
def defaultMachine : Machine :=
  { hostname := "Unknown", ip_address := "", cpu_model := "Unknown",
    cpu_cores := 0, cpu_usage_percent := 0, memory_total := "Unknown",
    memory_available := "Unknown", memory_usage_percent := 0,
    storage_total := "Unknown", storage_free := "Unknown",
    storage_usage_percent := 0, online_status := "unknown", last_seen := 0 }

/-- A decoded JSON-object payload, with one `Option` field per
`data.get(...)` chain the subscriber performs.  `timestamp` is present in
the publisher's payloads but never read by the subscriber. -/
structure Payload where
  machine_id : Option String := none
  hostname : Option String := none
  ip_address : Option String := none
  cpu_model : Option String := none
  cpu_cores : Option Int := none
  cpu_usage_percent : Option Int := none
  memory_total : Option String := none
  memory_available : Option String := none
  memory_usage_percent : Option Int := none
  storage_total : Option String := none
  storage_free : Option String := none
  storage_usage_percent : Option Int := none
  online_status : Option String := none
  status : Option String := none
  timestamp : Option Int := none
deriving DecidableEq, Repr

/-- An inbound transport message: a topic and a payload.  `content = none`
models a payload whose JSON decoding fails. -/
structure Msg where
  topic : String
  content : Option Payload
deriving DecidableEq, Repr

/-- Classified outcomes the handler reports via `print`: the status-update
print (line 90), the per-machine update print (line 122), and the JSON
decode failure print (line 125). -/
inductive LogEvent where
  | statusUpdated (machine_id status : String)
  | machineUpdate (machine_id : String)
  | jsonDecodeError (topic : String)
deriving DecidableEq, Repr

/-- The machine dict built from a full report (lines 99-119): every absent
field is defaulted — `Unknown` for strings except `ip_address` (which
defaults to the empty string, line 101), zero for numerics, `online`
for `online_status` — and `last_seen` is the arrival time. -/
def mkMachine (data : Payload) (now : Int) : Machine :=
  { hostname := data.hostname.getD "Unknown",
    ip_address := data.ip_address.getD "",
    cpu_model := data.cpu_model.getD "Unknown",
    cpu_cores := data.cpu_cores.getD 0,
    cpu_usage_percent := data.cpu_usage_percent.getD 0,
    memory_total := data.memory_total.getD "Unknown",
    memory_available := data.memory_available.getD "Unknown",
    memory_usage_percent := data.memory_usage_percent.getD 0,
    storage_total := data.storage_total.getD "Unknown",
    storage_free := data.storage_free.getD "Unknown",
    storage_usage_percent := data.storage_usage_percent.getD 0,
    online_status := data.online_status.getD "online",
    last_seen := now }

/-- Registry state: the heap of machine-dict objects plus the global
`machines` dict (id → heap address, in insertion order). -/
structure RegState where
  store : List Machine
  machines : List (String × Nat)
deriving DecidableEq, Repr

/-- The initial empty registry (`machines = dict()` at module load). -/
def emptyState : RegState := { store := [], machines := [] }

/-- Read the heap at an address. -/
def readStore (s : List Machine) (a : Nat) : Machine :=
  s.getD a defaultMachine

/-- Dict lookup: `machines.get(machine_id)` / `machine_id in machines`. -/
def lookupPairs (id : String) : List (String × Nat) → Option Nat
  | [] => none
  | p :: rest => if p.1 = id then some p.2 else lookupPairs id rest

/-- Dict assignment `machines[machine_id] = obj`: an existing key keeps its
position and is rebound to the new address; a new key is appended. -/
def updateMapping (id : String) (a : Nat) : List (String × Nat) → List (String × Nat)
  | [] => [(id, a)]
  | p :: rest => if p.1 = id then (id, a) :: rest else p :: updateMapping id a rest

/-- Full-report ingestion (lines 98-119): allocate a fresh machine dict on
the heap and bind `machine_id` to it. -/
def applyFullReport (now : Int) (id : String) (data : Payload) (st : RegState) : RegState :=
  { store := st.store ++ [mkMachine data now],
    machines := updateMapping id st.store.length st.machines }

/-- In-place mutation `machines[mid][online_status] = status` through a heap
address. -/
def setStatusAt (s : List Machine) (a : Nat) (status : String) : List Machine :=
  s.set a { readStore s a with online_status := status }

/-- Helper for `topicParts`: split a character list on the slash
separator, accumulating the current segment in reverse. -/
def splitOnSlashAux : List Char → List Char → List String
  | [], acc => [String.mk acc.reverse]
  | c :: cs, acc =>
      if c = '/' then String.mk acc.reverse :: splitOnSlashAux cs []
      else splitOnSlashAux cs (c :: acc)

/-- `msg.topic.split('/')` (line 79): single-character-separator split,
with Python semantics (an empty topic gives one empty segment, adjacent
slashes give empty segments). -/
def topicParts (topic : String) : List String :=
  splitOnSlashAux topic.data []

/-- Does the topic match `machine_status/machine-id/status` (line 82:
`len(topic_parts) >= 3 and topic_parts[2] == "status"`)? -/
def isStatusTopic (topic : String) : Bool :=
  let parts := topicParts topic
  decide (3 ≤ parts.length) && (parts.getD 2 "") == "status"

/-- `topic_parts[1]`: the machine id encoded in a status topic. -/
def statusTopicId (topic : String) : String :=
  (topicParts topic).getD 1 ""

/-- The `_on_message` callback (lines 69-127): returns the updated registry
and the list of classified outcomes it printed.
- JSON decode failure: drop, report `jsonDecodeError`.
- Status topic: `status = data.get('status', 'unknown')`; update
  `online_status` in place only when the machine id is already known,
  silently do nothing otherwise.
- General topic with a `machine_id` field: full-report ingestion.
- General topic without `machine_id`: fall through — no mutation and no
  print of any kind. -/
def on_message (msg : Msg) (now : Int) (st : RegState) : RegState × List LogEvent :=
  match msg.content with
  | none => (st, [.jsonDecodeError msg.topic])
  | some data =>
    if isStatusTopic msg.topic then
      let mid := statusTopicId msg.topic
      let status := data.status.getD "unknown"
      match lookupPairs mid st.machines with
      | some a =>
          ({ st with store := setStatusAt st.store a status }, [.statusUpdated mid status])
      | none => (st, [])
    else
      match data.machine_id with
      | some mid => (applyFullReport now mid data st, [.machineUpdate mid])
      | none => (st, [])

/-- One record's fate under an offline-detector pass (lines 163-167): a
record whose status is not `offline` and whose elapsed time strictly
exceeds the threshold is flipped to `offline`; otherwise it is untouched. -/
def tickStep (now threshold : Int) (m : Machine) : Machine :=
  if m.online_status ≠ "offline" ∧ now - m.last_seen > threshold then
    { m with online_status := "offline" }
  else m

/-- The loop body of `_offline_detector` over the dict items, threading the
heap: each visited record is re-read from the heap (the Python loop reads
the live dict object). -/
def tickFold (now threshold : Int) : List (String × Nat) → List Machine → List Machine
  | [], s => s
  | p :: rest, s =>
      let m := readStore s p.2
      let s' :=
        if m.online_status ≠ "offline" ∧ now - m.last_seen > threshold then
          s.set p.2 { m with online_status := "offline" }
        else s
      tickFold now threshold rest s'

/-- One pass of the `_offline_detector` background loop (lines 159-167):
scan `list(machines.items())` and flip stale non-offline records to
`offline` in place. -/
def offline_detector_tick (now threshold : Int) (st : RegState) : RegState :=
  { st with store := tickFold now threshold st.machines st.store }

/-- `get_machine_status(machine_id)` (lines 262-263): `machines.get(mid,
dict()).copy()`.  `none` models the empty-dict not-found sentinel. -/
def get_machine_status_one (id : String) (st : RegState) : Option Machine :=
  (lookupPairs id st.machines).map (readStore st.store)

/-- `get_machine_status()` with no id (line 266): `machines.copy()` — a
shallow copy: the key → object-reference table is copied, the referenced
machine dicts are shared with the registry. -/
def get_machine_status_all (st : RegState) : List (String × Nat) :=
  st.machines

/-- Dereference a shallow copy against a heap: what the holder of the copy
observes when reading it after the registry has moved on to heap `s`. -/
def viewCopy (copy : List (String × Nat)) (s : List Machine) : List (String × Machine) :=
  copy.map (fun p => (p.1, readStore s p.2))

/-- The records as an external reader sees them right now, in dict
(insertion) order. -/
def view (st : RegState) : List (String × Machine) :=
  viewCopy st.machines st.store

/-- Stable insertion of one item into a hostname-sorted list: the new item
goes after every item whose hostname is ≤ its own. -/
def insertByHostname (x : String × Machine) : List (String × Machine) → List (String × Machine)
  | [] => [x]
  | y :: ys =>
      if y.2.hostname ≤ x.2.hostname then y :: insertByHostname x ys
      else x :: y :: ys

/-- Stable sort by hostname, mirroring
`sorted(machines.items(), key=lambda x: x[1]['hostname'])` (line 226). -/
def sortByHostname : List (String × Machine) → List (String × Machine)
  | [] => []
  | x :: xs => insertByHostname x (sortByHostname xs)

/-- The order in which `print_all_machines` (lines 212-252) displays the
records: the registry contents sorted by hostname. -/
def print_all_machines_order (st : RegState) : List (String × Machine) :=
  sortByHostname (view st)

/-- Heap well-formedness: distinct dict keys point at distinct heap objects
(`machines[mid] = dict` always binds a fresh object) and every address is
allocated.  This holds for every registry state the module can reach; it is
established by `wf_emptyState` and preserved by every operation
(`wf_on_message`, `wf_offline_detector_tick`). -/
def WF (st : RegState) : Prop :=
  st.machines.Pairwise (fun p q => p.2 ≠ q.2) ∧
    ∀ p ∈ st.machines, p.2 < st.store.length

instance (st : RegState) : Decidable (WF st) := by
  unfold WF
  exact instDecidableAnd

/-- One event of the module's event space: an MQTT message delivery or one
pass of the offline detector. -/
inductive Event where
  | message (now : Int) (msg : Msg)
  | tick (now : Int) (threshold : Int)
deriving DecidableEq, Repr

/-- Apply one event to the registry. -/
def stepEvent (st : RegState) (e : Event) : RegState :=
  match e with
  | .message now msg => (on_message msg now st).1
  | .tick now threshold => offline_detector_tick now threshold st

/-- Run a trace of events from the empty registry. -/
def runEvents (es : List Event) : RegState :=
  es.foldl stepEvent emptyState

/-- An event whose inbound statuses are well-formed: a status-topic message
carries a `status` field that is `online` or `offline`, and a general
message's `online_status` field, when present, is `online` or `offline`. -/
def goodEvent : Event → Bool
  | .tick _ _ => true
  | .message _ msg =>
    match msg.content with
    | none => true
    | some data =>
      if isStatusTopic msg.topic then
        data.status == some "online" || data.status == some "offline"
      else
        data.online_status == none || data.online_status == some "online" ||
          data.online_status == some "offline"

/-- Every record the registry serves is `online` or `offline`. -/
def GoodState (st : RegState) : Prop :=
  ∀ id m, get_machine_status_one id st = some m →
    m.online_status = "online" ∨ m.online_status = "offline"

/-- Two machine records agree on every field except possibly
`online_status`. -/
def sameExceptStatus (m m' : Machine) : Prop :=
  m.hostname = m'.hostname ∧ m.ip_address = m'.ip_address ∧
    m.cpu_model = m'.cpu_model ∧ m.cpu_cores = m'.cpu_cores ∧
    m.cpu_usage_percent = m'.cpu_usage_percent ∧
    m.memory_total = m'.memory_total ∧
    m.memory_available = m'.memory_available ∧
    m.memory_usage_percent = m'.memory_usage_percent ∧
    m.storage_total = m'.storage_total ∧ m.storage_free = m'.storage_free ∧
    m.storage_usage_percent = m'.storage_usage_percent ∧
    m.last_seen = m'.last_seen

/-- Point reads agree up to `online_status`: both absent, or both present
with the same record modulo `online_status`. -/
def optSameExceptStatus : Option Machine → Option Machine → Prop
  | none, none => True
  | some m, some m' => sameExceptStatus m m'
  | _, _ => False

/-! ### Concrete fixtures -/

/-- A representative full report: machine m1, hostname zeta, cpu usage 10. -/
def reportPayloadW : Payload :=
  { machine_id := some "m1", hostname := some "zeta", cpu_usage_percent := some 10 }

/-- The representative report delivered on the general wildcard topic. -/
def reportMsgW : Msg := ⟨"machine_status/data", some reportPayloadW⟩

/-- A registry holding exactly m1, ingested at time 0. -/
def stW : RegState := (on_message reportMsgW 0 emptyState).1

/-- The record the representative report creates. -/
def machineW : Machine := mkMachine reportPayloadW 0

/-- A full report whose stated status is the nonstandard string unknown. -/
def unknownReportMsg : Msg :=
  ⟨"machine_status/data",
    some { machine_id := some "m1", online_status := some "unknown" }⟩

/-- A registry holding m1 with status string unknown, ingested at time 0. -/
def stUnknown : RegState := (on_message unknownReportMsg 0 emptyState).1

/-- A status-topic message whose payload has no status field at all. -/
def emptyStatusMsg : Msg := ⟨"machine_status/m1/status", some ({} : Payload)⟩

/-- Reachable trace: m1 reports normally at time 0, then the status-topic
message with no status field arrives. -/
def esUnknownStatus : List Event :=
  [.message 0 reportMsgW, .message 1 emptyStatusMsg]

/-- A trace whose inbound statuses are all well-formed. -/
def esGood : List Event :=
  [.message 0 reportMsgW,
   .message 5 ⟨"machine_status/m1/status", some { status := some "offline" }⟩,
   .tick 100 60]

/-- First report of the two-machine scenario: m1 with hostname zeta. -/
def reportZeta : Payload := { machine_id := some "m1", hostname := some "zeta" }

/-- Second report of the two-machine scenario: m2 with hostname alpha. -/
def reportAlpha : Payload := { machine_id := some "m2", hostname := some "alpha" }

/-- Two machines whose dict insertion order (m1 zeta first, m2 alpha
second) is the reverse of ascending hostname order. -/
def stTwoHosts : RegState := runEvents
  [.message 0 ⟨"machine_status/data", some reportZeta⟩,
   .message 1 ⟨"machine_status/data", some reportAlpha⟩]

/-- An out-of-band status correction for m1. -/
def statusOfflineMsg : Msg :=
  ⟨"machine_status/m1/status", some { status := some "offline" }⟩

/-- First of two consecutive reports for m1: cpu usage 10. -/
def usage10Payload : Payload :=
  { machine_id := some "m1", cpu_usage_percent := some 10 }

/-- Second of two consecutive reports for m1: cpu usage 90, with an
embedded timestamp that the subscriber never reads. -/
def usage90Payload : Payload :=
  { machine_id := some "m1", cpu_usage_percent := some 90, timestamp := some 1 }

/-! ### Heap and dict lemmas -/

theorem readStore_set (s : List Machine) (a b : Nat) (m : Machine) :
    readStore (s.set a m) b = if a = b ∧ a < s.length then m else readStore s b := by
  unfold readStore
  rw [List.getD_eq_getElem?_getD, List.getD_eq_getElem?_getD, List.getElem?_set]
  by_cases hab : a = b
  · subst hab
    by_cases hlen : a < s.length
    · simp [hlen]
    · have : s[a]? = none := List.getElem?_eq_none (Nat.le_of_not_lt hlen)
      simp [hlen, this]
  · simp [hab]

theorem readStore_append_lt (s t : List Machine) (a : Nat) (h : a < s.length) :
    readStore (s ++ t) a = readStore s a :=
  List.getD_append s t defaultMachine a h

theorem readStore_append_len (s : List Machine) (m : Machine) :
    readStore (s ++ [m]) s.length = m := by
  unfold readStore
  rw [List.getD_eq_getElem?_getD, List.getElem?_concat_length]
  rfl

theorem lookupPairs_mem {id : String} {a : Nat} {l : List (String × Nat)}
    (h : lookupPairs id l = some a) : (id, a) ∈ l := by
  induction l with
  | nil => simp [lookupPairs] at h
  | cons p rest ih =>
    unfold lookupPairs at h
    by_cases hp : p.1 = id
    · simp only [hp, if_pos rfl, Option.some.injEq] at h
      have : p = (id, a) := by
        cases p
        simp_all
      rw [← this]
      exact List.mem_cons_self p rest
    · simp only [hp, if_false] at h
      exact List.mem_cons_of_mem p (ih h)

theorem mem_updateMapping {q : String × Nat} {id : String} {a : Nat}
    {l : List (String × Nat)} (h : q ∈ updateMapping id a l) :
    q = (id, a) ∨ q ∈ l := by
  induction l with
  | nil => simpa [updateMapping] using h
  | cons p rest ih =>
    unfold updateMapping at h
    by_cases hp : p.1 = id
    · simp only [hp, if_pos rfl] at h
      rcases List.mem_cons.mp h with h1 | h1
      · exact Or.inl h1
      · exact Or.inr (List.mem_cons_of_mem p h1)
    · simp only [hp, if_false] at h
      rcases List.mem_cons.mp h with h1 | h1
      · exact Or.inr (h1 ▸ List.mem_cons_self p rest)
      · rcases ih h1 with h2 | h2
        · exact Or.inl h2
        · exact Or.inr (List.mem_cons_of_mem p h2)

theorem lookupPairs_updateMapping_self (id : String) (a : Nat)
    (l : List (String × Nat)) : lookupPairs id (updateMapping id a l) = some a := by
  induction l with
  | nil => simp [updateMapping, lookupPairs]
  | cons p rest ih =>
    unfold updateMapping
    by_cases hp : p.1 = id
    · simp [hp, lookupPairs]
    · simp [hp, lookupPairs, ih]

theorem lookupPairs_updateMapping_ne {id' id : String} (hne : id' ≠ id) (a : Nat)
    (l : List (String × Nat)) :
    lookupPairs id' (updateMapping id a l) = lookupPairs id' l := by
  have hne' : id ≠ id' := Ne.symm hne
  induction l with
  | nil => simp [updateMapping, lookupPairs, hne']
  | cons p rest ih =>
    unfold updateMapping
    by_cases hp : p.1 = id
    · simp [hp, lookupPairs, hne']
    · simp [hp, lookupPairs, ih]

theorem lookupPairs_updateMapping_cases {id' id : String} {a' a : Nat}
    {l : List (String × Nat)}
    (h : lookupPairs id' (updateMapping id a l) = some a') :
    (id' = id ∧ a' = a) ∨ lookupPairs id' l = some a' := by
  by_cases hid : id' = id
  · subst hid
    rw [lookupPairs_updateMapping_self] at h
    exact Or.inl ⟨rfl, (Option.some.injEq _ _ ▸ h).symm⟩
  · rw [lookupPairs_updateMapping_ne hid] at h
    exact Or.inr h

theorem pairwise_updateMapping {l : List (String × Nat)} {id : String} {a : Nat}
    (hp : l.Pairwise (fun p q => p.2 ≠ q.2)) (ha : ∀ p ∈ l, p.2 ≠ a) :
    (updateMapping id a l).Pairwise (fun p q => p.2 ≠ q.2) := by
  induction l with
  | nil => simp [updateMapping]
  | cons p rest ih =>
    rcases List.pairwise_cons.mp hp with ⟨hhead, htail⟩
    unfold updateMapping
    by_cases hpid : p.1 = id
    · simp only [hpid, if_pos rfl]
      refine List.pairwise_cons.mpr ⟨?_, htail⟩
      intro q hq
      exact fun hqa => ha q (List.mem_cons_of_mem p hq) hqa.symm
    · simp only [hpid, if_false]
      refine List.pairwise_cons.mpr ⟨?_, ih htail (fun q hq => ha q (List.mem_cons_of_mem p hq))⟩
      intro q hq
      rcases mem_updateMapping hq with h1 | h1
      · rw [h1]
        exact ha p (List.mem_cons_self p rest)
      · exact hhead q h1

theorem pairwise_addr_ne {l : List (String × Nat)}
    (hp : l.Pairwise (fun p q => p.2 ≠ q.2)) {id id' : String} {a a' : Nat}
    (h1 : (id, a) ∈ l) (h2 : (id', a') ∈ l) (hne : id ≠ id') : a ≠ a' := by
  have hsym : Symmetric (fun p q : String × Nat => p.2 ≠ q.2) :=
    fun p q h => fun he => h he.symm
  exact hp.forall hsym h1 h2 (fun he => hne (congrArg Prod.fst he))

/-! ### Offline-detector pass lemmas -/

theorem tickFold_length (now th : Int) :
    ∀ (l : List (String × Nat)) (s : List Machine),
      (tickFold now th l s).length = s.length := by
  intro l
  induction l with
  | nil => intro s; rfl
  | cons p rest ih =>
    intro s
    unfold tickFold
    by_cases hc : (readStore s p.2).online_status ≠ "offline" ∧
        now - (readStore s p.2).last_seen > th
    · simp only [if_pos hc]
      rw [ih, List.length_set]
    · simp only [if_neg hc]
      exact ih s

theorem tickFold_read_notin (now th : Int) :
    ∀ (l : List (String × Nat)) (s : List Machine) (a : Nat),
      (∀ p ∈ l, p.2 ≠ a) →
      readStore (tickFold now th l s) a = readStore s a := by
  intro l
  induction l with
  | nil => intro s a _; rfl
  | cons p rest ih =>
    intro s a hne
    unfold tickFold
    by_cases hc : (readStore s p.2).online_status ≠ "offline" ∧
        now - (readStore s p.2).last_seen > th
    · simp only [if_pos hc]
      rw [ih _ a (fun q hq => hne q (List.mem_cons_of_mem p hq)),
        readStore_set]
      have : ¬(p.2 = a ∧ p.2 < s.length) :=
        fun h => hne p (List.mem_cons_self p rest) h.1
      simp [this]
    · simp only [if_neg hc]
      exact ih s a (fun q hq => hne q (List.mem_cons_of_mem p hq))

theorem tickFold_read_mem (now th : Int) :
    ∀ (l : List (String × Nat)) (s : List Machine) (id : String) (a : Nat),
      l.Pairwise (fun p q => p.2 ≠ q.2) →
      (∀ p ∈ l, p.2 < s.length) →
      (id, a) ∈ l →
      readStore (tickFold now th l s) a = tickStep now th (readStore s a) := by
  intro l
  induction l with
  | nil => intro s id a _ _ hmem; simp at hmem
  | cons p rest ih =>
    intro s id a hpw hbound hmem
    rcases List.pairwise_cons.mp hpw with ⟨hhead, htail⟩
    rcases List.mem_cons.mp hmem with h1 | h1
    · have hpa : p.2 = a := congrArg Prod.snd h1.symm
      unfold tickFold
      by_cases hc : (readStore s p.2).online_status ≠ "offline" ∧
          now - (readStore s p.2).last_seen > th
      · simp only [if_pos hc]
        rw [tickFold_read_notin now th rest _ a
          (fun q hq => hpa ▸ Ne.symm (hhead q hq)), readStore_set]
        have hb : p.2 < s.length := hbound p (List.mem_cons_self p rest)
        rw [if_pos ⟨hpa, hb⟩]
        rw [tickStep, if_pos (hpa ▸ hc)]
        rw [hpa]
      · simp only [if_neg hc]
        rw [tickFold_read_notin now th rest s a
          (fun q hq => hpa ▸ Ne.symm (hhead q hq))]
        rw [tickStep, if_neg (hpa ▸ hc)]
    · have hne : p.2 ≠ a := by
        intro he
        exact hhead (id, a) h1 he
      unfold tickFold
      by_cases hc : (readStore s p.2).online_status ≠ "offline" ∧
          now - (readStore s p.2).last_seen > th
      · simp only [if_pos hc]
        have hsa : readStore (s.set p.2 { readStore s p.2 with online_status := "offline" }) a
            = readStore s a := by
          rw [readStore_set]
          simp [hne]
        rw [ih _ id a htail ?_ h1, hsa]
        intro q hq
        rw [List.length_set]
        exact hbound q (List.mem_cons_of_mem p hq)
      · simp only [if_neg hc]
        exact ih s id a htail (fun q hq => hbound q (List.mem_cons_of_mem p hq)) h1

/-! ### Well-formedness is an invariant -/

theorem wf_emptyState : WF emptyState := by
  constructor
  · exact List.Pairwise.nil
  · intro p hp
    simp [emptyState] at hp

theorem wf_applyFullReport {st : RegState} (h : WF st) (now : Int) (id : String)
    (data : Payload) : WF (applyFullReport now id data st) := by
  rcases h with ⟨hpw, hb⟩
  constructor
  · exact pairwise_updateMapping hpw
      (fun p hp => Nat.ne_of_lt (hb p hp))
  · intro p hp
    rcases mem_updateMapping hp with h1 | h1
    · rw [h1]
      simp [applyFullReport]
    · have := hb p h1
      simp only [applyFullReport, List.length_append, List.length_cons,
        List.length_nil]
      omega

theorem wf_setStatus {st : RegState} (h : WF st) (a : Nat) (status : String) :
    WF { st with store := setStatusAt st.store a status } := by
  rcases h with ⟨hpw, hb⟩
  refine ⟨hpw, ?_⟩
  intro p hp
  rw [setStatusAt, List.length_set]
  exact hb p hp

theorem wf_on_message {st : RegState} (h : WF st) (msg : Msg) (now : Int) :
    WF (on_message msg now st).1 := by
  unfold on_message
  cases msg.content with
  | none => exact h
  | some data =>
    by_cases ht : isStatusTopic msg.topic
    · simp only [ht, if_pos]
      cases hl : lookupPairs (statusTopicId msg.topic) st.machines with
      | none => exact h
      | some a => exact wf_setStatus h a (data.status.getD "unknown")
    · simp only [ht, if_false]
      cases data.machine_id with
      | none => exact h
      | some mid => exact wf_applyFullReport h now mid data

theorem wf_offline_detector_tick {st : RegState} (h : WF st) (now th : Int) :
    WF (offline_detector_tick now th st) := by
  rcases h with ⟨hpw, hb⟩
  refine ⟨hpw, ?_⟩
  intro p hp
  rw [offline_detector_tick, tickFold_length]
  exact hb p hp

/-! ### Operational lemmas about point reads -/

theorem getOne_applyFullReport_self (st : RegState) (now : Int) (id : String)
    (data : Payload) :
    get_machine_status_one id (applyFullReport now id data st) =
      some (mkMachine data now) := by
  unfold get_machine_status_one applyFullReport
  simp only
  rw [lookupPairs_updateMapping_self, Option.map_some']
  rw [readStore_append_len st.store (mkMachine data now)]

theorem getOne_applyFullReport_ne {st : RegState} (h : WF st) {id' id : String}
    (hne : id' ≠ id) (now : Int) (data : Payload) :
    get_machine_status_one id' (applyFullReport now id data st) =
      get_machine_status_one id' st := by
  unfold get_machine_status_one applyFullReport
  simp only
  rw [lookupPairs_updateMapping_ne hne]
  cases hl : lookupPairs id' st.machines with
  | none => rfl
  | some a =>
    rw [Option.map_some', Option.map_some',
      readStore_append_lt _ _ a (h.2 _ (lookupPairs_mem hl))]

theorem getOne_tick {st : RegState} (h : WF st) (now th : Int) (id : String) :
    get_machine_status_one id (offline_detector_tick now th st) =
      (get_machine_status_one id st).map (tickStep now th) := by
  unfold get_machine_status_one offline_detector_tick
  simp only
  cases hl : lookupPairs id st.machines with
  | none => rfl
  | some a =>
    rw [Option.map_some', Option.map_some',
      tickFold_read_mem now th st.machines st.store id a h.1 h.2 (lookupPairs_mem hl),
      Option.map_some']

theorem getOne_setStatus_self {st : RegState} (h : WF st) {id : String} {a : Nat}
    (hl : lookupPairs id st.machines = some a) (status : String) :
    get_machine_status_one id { st with store := setStatusAt st.store a status } =
      some { readStore st.store a with online_status := status } := by
  unfold get_machine_status_one
  simp only
  rw [hl, Option.map_some', setStatusAt, readStore_set]
  have hb : a < st.store.length := h.2 _ (lookupPairs_mem hl)
  simp [hb]

theorem getOne_setStatus_ne {st : RegState} (h : WF st) {id id' : String} {a : Nat}
    (hl : lookupPairs id st.machines = some a) (hne : id' ≠ id) (status : String) :
    get_machine_status_one id' { st with store := setStatusAt st.store a status } =
      get_machine_status_one id' st := by
  unfold get_machine_status_one
  simp only
  cases hl' : lookupPairs id' st.machines with
  | none => rfl
  | some a' =>
    rw [Option.map_some', Option.map_some', setStatusAt, readStore_set]
    have hne' : a ≠ a' :=
      pairwise_addr_ne h.1 (lookupPairs_mem hl) (lookupPairs_mem hl') (Ne.symm hne)
    simp [hne']

/-! ### Frame predicates -/

theorem sameExceptStatus_refl (m : Machine) : sameExceptStatus m m := by
  unfold sameExceptStatus
  exact ⟨rfl, rfl, rfl, rfl, rfl, rfl, rfl, rfl, rfl, rfl, rfl, rfl⟩

theorem sameExceptStatus_setStatus (m : Machine) (status : String) :
    sameExceptStatus m { m with online_status := status } :=
  sameExceptStatus_refl m

theorem sameExceptStatus_tickStep (now th : Int) (m : Machine) :
    sameExceptStatus m (tickStep now th m) := by
  unfold tickStep
  by_cases hc : m.online_status ≠ "offline" ∧ now - m.last_seen > th
  · rw [if_pos hc]
    exact sameExceptStatus_refl m
  · rw [if_neg hc]
    exact sameExceptStatus_refl m

/-! ### Step lemmas and invariants over event traces -/

theorem wf_stepEvent {st : RegState} (h : WF st) (e : Event) : WF (stepEvent st e) := by
  cases e with
  | message now msg => exact wf_on_message h msg now
  | tick now th => exact wf_offline_detector_tick h now th

theorem goodState_emptyState : GoodState emptyState := by
  intro id m h
  simp [get_machine_status_one, emptyState, lookupPairs] at h

theorem on_message_decode_fail (msg : Msg) (now : Int) (st : RegState)
    (h : msg.content = none) :
    on_message msg now st = (st, [.jsonDecodeError msg.topic]) := by
  unfold on_message
  rw [h]

theorem on_message_status_known {msg : Msg} {data : Payload} {st : RegState} {a : Nat}
    (h1 : msg.content = some data) (h2 : isStatusTopic msg.topic = true)
    (h3 : lookupPairs (statusTopicId msg.topic) st.machines = some a) (now : Int) :
    on_message msg now st =
      ({ st with store := setStatusAt st.store a (data.status.getD "unknown") },
        [.statusUpdated (statusTopicId msg.topic) (data.status.getD "unknown")]) := by
  unfold on_message
  rw [h1]
  simp only [h2, if_true, h3]

theorem on_message_status_unknown_id {msg : Msg} {data : Payload} {st : RegState}
    (h1 : msg.content = some data) (h2 : isStatusTopic msg.topic = true)
    (h3 : lookupPairs (statusTopicId msg.topic) st.machines = none) (now : Int) :
    on_message msg now st = (st, []) := by
  unfold on_message
  rw [h1]
  simp only [h2, if_true, h3]

theorem on_message_report {msg : Msg} {data : Payload} {mid : String}
    (h1 : msg.content = some data) (h2 : isStatusTopic msg.topic = false)
    (h3 : data.machine_id = some mid) (now : Int) (st : RegState) :
    on_message msg now st =
      (applyFullReport now mid data st, [.machineUpdate mid]) := by
  unfold on_message
  rw [h1]
  simp only [h2, if_false, h3, Bool.false_eq_true]

theorem on_message_no_mid {msg : Msg} {data : Payload}
    (h1 : msg.content = some data) (h2 : isStatusTopic msg.topic = false)
    (h3 : data.machine_id = none) (now : Int) (st : RegState) :
    on_message msg now st = (st, []) := by
  unfold on_message
  rw [h1]
  simp only [h2, if_false, h3, Bool.false_eq_true]

theorem goodState_stepEvent {st : RegState} (hwf : WF st) (hgood : GoodState st)
    {e : Event} (hge : goodEvent e = true) : GoodState (stepEvent st e) := by
  cases e with
  | tick now th =>
    intro id m hm
    rw [stepEvent, getOne_tick hwf now th id] at hm
    cases hl : get_machine_status_one id st with
    | none => rw [hl] at hm; simp at hm
    | some m0 =>
      rw [hl, Option.map_some'] at hm
      have hminj := Option.some.inj hm
      rw [← hminj]
      have hm0 := hgood id m0 hl
      unfold tickStep
      by_cases hc : m0.online_status ≠ "offline" ∧ now - m0.last_seen > th
      · rw [if_pos hc]
        exact Or.inr rfl
      · rw [if_neg hc]
        exact hm0
  | message now msg =>
    rw [stepEvent]
    cases hcont : msg.content with
    | none =>
      rw [on_message_decode_fail msg now st hcont]
      exact hgood
    | some data =>
      rw [goodEvent, hcont] at hge
      cases ht : isStatusTopic msg.topic with
      | true =>
        simp only [ht, if_true] at hge
        cases hl : lookupPairs (statusTopicId msg.topic) st.machines with
        | none =>
          rw [on_message_status_unknown_id hcont ht hl now]
          exact hgood
        | some a =>
          rw [on_message_status_known hcont ht hl now]
          intro id m hm
          by_cases hid : id = statusTopicId msg.topic
          · subst hid
            rw [getOne_setStatus_self hwf hl] at hm
            have hminj := Option.some.inj hm
            rw [← hminj]
            rcases Bool.or_eq_true _ _ |>.mp hge with h1 | h1
            · left
              rw [beq_iff_eq.mp h1]
              rfl
            · right
              rw [beq_iff_eq.mp h1]
              rfl
          · rw [getOne_setStatus_ne hwf hl hid] at hm
            exact hgood id m hm
      | false =>
        simp only [ht, Bool.false_eq_true, if_false] at hge
        cases hmid : data.machine_id with
        | none =>
          rw [on_message_no_mid hcont ht hmid now st]
          exact hgood
        | some mid =>
          rw [on_message_report hcont ht hmid now st]
          intro id m hm
          by_cases hid : id = mid
          · subst hid
            rw [getOne_applyFullReport_self] at hm
            have hminj := Option.some.inj hm
            rw [← hminj]
            have hos : (mkMachine data now).online_status =
                data.online_status.getD "online" := rfl
            rw [hos]
            rcases Bool.or_eq_true _ _ |>.mp hge with h1 | h1
            · rcases Bool.or_eq_true _ _ |>.mp h1 with h2 | h2
              · left
                rw [beq_iff_eq.mp h2]
                rfl
              · left
                rw [beq_iff_eq.mp h2]
                rfl
            · right
              rw [beq_iff_eq.mp h1]
              rfl
          · rw [getOne_applyFullReport_ne hwf hid now data] at hm
            exact hgood id m hm

theorem wf_foldl (es : List Event) :
    ∀ st, WF st → WF (es.foldl stepEvent st) := by
  induction es with
  | nil => intro st h; exact h
  | cons e rest ih =>
    intro st h
    rw [List.foldl_cons]
    exact ih _ (wf_stepEvent h e)

theorem wf_runEvents (es : List Event) : WF (runEvents es) :=
  wf_foldl es emptyState wf_emptyState

theorem good_foldl (es : List Event) :
    ∀ st, WF st → GoodState st → (∀ e ∈ es, goodEvent e = true) →
      GoodState (es.foldl stepEvent st) := by
  induction es with
  | nil => intro st _ hg _; exact hg
  | cons e rest ih =>
    intro st hwf hg hge
    rw [List.foldl_cons]
    exact ih (stepEvent st e) (wf_stepEvent hwf e)
      (goodState_stepEvent hwf hg (hge e (List.mem_cons_self e rest)))
      (fun e' he' => hge e' (List.mem_cons_of_mem e he'))

/-! ### Sorting lemmas for the reporter ordering -/

theorem insertByHostname_perm (x : String × Machine) (l : List (String × Machine)) :
    (insertByHostname x l).Perm (x :: l) := by
  induction l with
  | nil => exact List.Perm.refl _
  | cons y ys ih =>
    unfold insertByHostname
    by_cases hle : y.2.hostname ≤ x.2.hostname
    · rw [if_pos hle]
      exact (ih.cons y).trans (List.Perm.swap x y ys)
    · rw [if_neg hle]

theorem sortByHostname_perm (l : List (String × Machine)) :
    (sortByHostname l).Perm l := by
  induction l with
  | nil => exact List.Perm.refl _
  | cons x xs ih =>
    unfold sortByHostname
    exact (insertByHostname_perm x (sortByHostname xs)).trans (ih.cons x)

theorem insertByHostname_sorted (x : String × Machine)
    {l : List (String × Machine)}
    (h : l.Pairwise (fun p q => p.2.hostname ≤ q.2.hostname)) :
    (insertByHostname x l).Pairwise (fun p q => p.2.hostname ≤ q.2.hostname) := by
  induction l with
  | nil =>
    unfold insertByHostname
    exact List.pairwise_singleton _ x
  | cons y ys ih =>
    rcases List.pairwise_cons.mp h with ⟨hhead, htail⟩
    unfold insertByHostname
    by_cases hle : y.2.hostname ≤ x.2.hostname
    · rw [if_pos hle]
      refine List.pairwise_cons.mpr ⟨?_, ih htail⟩
      intro z hz
      rcases List.mem_cons.mp ((insertByHostname_perm x ys).mem_iff.mp hz) with h1 | h1
      · rw [h1]; exact hle
      · exact hhead z h1
    · rw [if_neg hle]
      have hxy : x.2.hostname ≤ y.2.hostname := le_of_not_le hle
      refine List.pairwise_cons.mpr ⟨?_, h⟩
      intro z hz
      rcases List.mem_cons.mp hz with h1 | h1
      · rw [h1]; exact hxy
      · exact le_trans hxy (hhead z h1)

theorem sortByHostname_sorted (l : List (String × Machine)) :
    (sortByHostname l).Pairwise (fun p q => p.2.hostname ≤ q.2.hostname) := by
  induction l with
  | nil => exact List.Pairwise.nil
  | cons x xs ih =>
    unfold sortByHostname
    exact insertByHostname_sorted x ih

/-! ### Shallow-copy lemmas -/

theorem viewCopy_append {st : RegState} (h : WF st) (ms : List Machine) :
    viewCopy st.machines (st.store ++ ms) = viewCopy st.machines st.store := by
  unfold viewCopy
  apply List.map_congr_left
  intro p hp
  rw [readStore_append_lt _ _ p.2 (h.2 p hp)]

theorem optSameExceptStatus_refl (x : Option Machine) : optSameExceptStatus x x := by
  cases x with
  | none => exact trivial
  | some m => exact sameExceptStatus_refl m

/-! ### Claims -/

/-- Claim C1 (amended): on each liveness sweep pass, a record is
transitioned to OFFLINE if and only if its status is not already `offline`
(not "only if it is ONLINE": any non-offline status, e.g. the string
`unknown`, is also swept) and `now - last_seen` strictly exceeds the
threshold; a record whose elapsed time is exactly the threshold is not
transitioned, and a record already OFFLINE is left untouched — `tickStep`
is exactly that per-record function, and the sweep applies it to every
record. -/
theorem C1_sweep_transition (st : RegState) (now th : Int) (id : String)
    (m : Machine) (hwf : WF st)
    (h : get_machine_status_one id st = some m) :
    get_machine_status_one id (offline_detector_tick now th st) =
      some (tickStep now th m) := by
  rw [getOne_tick hwf now th id, h, Option.map_some']

/-- Witness for C1: m1 reported at time 0; the sweep at time 100 with
threshold 60 flips its record to offline. -/
theorem C1_sweep_transition_witness :
    (WF stW ∧ get_machine_status_one "m1" stW = some machineW) ∧
    get_machine_status_one "m1" (offline_detector_tick 100 60 stW) =
      some (tickStep 100 60 machineW) :=
  ⟨⟨by decide, by decide⟩,
    C1_sweep_transition stW 100 60 "m1" machineW (by decide) (by decide)⟩

/-- Claim C1 counterexample: in the reachable registry `stUnknown` the
record of m1 carries the status string `unknown` — it is not ONLINE — yet
the sweep at time 100 with threshold 60 transitions it to `offline`,
refuting the "only if it is currently ONLINE" direction of the claim (the
code tests `online_status != 'offline'`, not `== 'online'`). -/
theorem C1_counterexample :
    (get_machine_status_one "m1" stUnknown).map Machine.online_status =
      some "unknown" ∧
    (get_machine_status_one "m1" (offline_detector_tick 100 60 stUnknown)).map
      Machine.online_status = some "offline" :=
  ⟨by decide, by decide⟩

/-- Claim C2 (amended): a general-path message whose payload decodes as
JSON but lacks `machine_id` is dropped with zero registry mutations, but
silently: the handler emits no log or classified error of any kind (the
`if machine_id in data` test simply falls through), unlike undecodable
JSON which is logged. -/
theorem C2_missing_id_silent (st : RegState) (now : Int) (topic : String)
    (data : Payload) (h1 : isStatusTopic topic = false)
    (h2 : data.machine_id = none) :
    on_message ⟨topic, some data⟩ now st = (st, []) :=
  on_message_no_mid rfl h1 h2 now st

/-- Witness for C2: a payload carrying only a hostname, delivered on the
general topic to the one-machine registry, is dropped silently. -/
theorem C2_missing_id_silent_witness :
    (isStatusTopic "machine_status/data" = false ∧
      ({ hostname := some "x" } : Payload).machine_id = none) ∧
    on_message ⟨"machine_status/data", some { hostname := some "x" }⟩ 5 stW =
      (stW, []) :=
  ⟨⟨by decide, rfl⟩,
    C2_missing_id_silent stW 5 "machine_status/data" { hostname := some "x" }
      (by decide) rfl⟩

/-- Claim C2 counterexample: the decoded general-path message with no
`machine_id` yields the empty log list — no decode error is logged or
reported (the registry is indeed left unchanged), refuting "logged/reported
as a classified error ... not silently ignored". -/
theorem C2_counterexample :
    (on_message ⟨"machine_status/data", some { hostname := some "x" }⟩ 5 stW).2 =
      [] ∧
    (on_message ⟨"machine_status/data", some { hostname := some "x" }⟩ 5 stW).1 =
      stW :=
  ⟨by decide, by decide⟩

/-- Claim C3: if two full reports for the same id are processed in order,
the registry afterwards holds exactly the record built from the second
payload at the second arrival time — every field is replaced, nothing of
the first report survives, and any `timestamp` embedded in either payload
is irrelevant (the handler never reads it). -/
theorem C3_last_write_wins (st : RegState) (t1 t2 : Int) (id : String)
    (topic1 topic2 : String) (p1 p2 : Payload)
    (h1 : isStatusTopic topic1 = false) (h2 : isStatusTopic topic2 = false)
    (hm1 : p1.machine_id = some id) (hm2 : p2.machine_id = some id) :
    get_machine_status_one id
        ((on_message ⟨topic2, some p2⟩ t2
          ((on_message ⟨topic1, some p1⟩ t1 st).1)).1) =
      some (mkMachine p2 t2) := by
  rw [on_message_report rfl h2 hm2]
  exact getOne_applyFullReport_self _ t2 id p2

/-- Witness for C3: usage 10 then usage 90 (the second report also carries
an embedded timestamp); the registry reflects usage 90. -/
theorem C3_last_write_wins_witness :
    (isStatusTopic "machine_status/data" = false ∧
      usage10Payload.machine_id = some "m1" ∧
      usage90Payload.machine_id = some "m1") ∧
    get_machine_status_one "m1"
        ((on_message ⟨"machine_status/data", some usage90Payload⟩ 2
          ((on_message ⟨"machine_status/data", some usage10Payload⟩ 1
            emptyState).1)).1) =
      some (mkMachine usage90Payload 2) :=
  ⟨⟨by decide, rfl, rfl⟩,
    C3_last_write_wins emptyState 1 2 "m1" "machine_status/data"
      "machine_status/data" usage10Payload usage90Payload
      (by decide) (by decide) rfl rfl⟩

/-- Claim C4: a status-only message for an id with no record is a no-op:
no error, no log, no record created, registry unchanged, and a point read
for that id still reports not-found (the empty-dict sentinel, modelled as
`none`). -/
theorem C4_status_unknown_id_noop (st : RegState) (now : Int) (topic : String)
    (data : Payload) (h1 : isStatusTopic topic = true)
    (h2 : get_machine_status_one (statusTopicId topic) st = none) :
    on_message ⟨topic, some data⟩ now st = (st, []) ∧
    get_machine_status_one (statusTopicId topic)
      (on_message ⟨topic, some data⟩ now st).1 = none := by
  have hl : lookupPairs (statusTopicId topic) st.machines = none := by
    unfold get_machine_status_one at h2
    exact Option.map_eq_none'.mp h2
  have heq : on_message ⟨topic, some data⟩ now st = (st, []) :=
    on_message_status_unknown_id rfl h1 hl now
  refine ⟨heq, ?_⟩
  rw [heq]
  exact h2

/-- Witness for C4: a status correction for the never-seen id ghost leaves
the one-machine registry untouched and ghost still not found. -/
theorem C4_status_unknown_id_noop_witness :
    (isStatusTopic "machine_status/ghost/status" = true ∧
      get_machine_status_one (statusTopicId "machine_status/ghost/status") stW =
        none) ∧
    (on_message ⟨"machine_status/ghost/status", some { status := some "offline" }⟩
        11 stW = (stW, []) ∧
      get_machine_status_one (statusTopicId "machine_status/ghost/status")
        (on_message ⟨"machine_status/ghost/status",
          some { status := some "offline" }⟩ 11 stW).1 = none) :=
  ⟨⟨by decide, by decide⟩,
    C4_status_unknown_id_noop stW 11 "machine_status/ghost/status"
      { status := some "offline" } (by decide) (by decide)⟩

/-- Claim C5 (amended): a full report for an id with no record creates a
record with `last_seen` equal to the ingestion time and with status equal
to the payload's stated `online_status` when present — ONLINE only as the
default when the field is absent (the claim's unconditional "LivenessState
= ONLINE" fails when the payload states another status). -/
theorem C5_first_contact (st : RegState) (now : Int) (topic : String)
    (data : Payload) (id : String) (h1 : isStatusTopic topic = false)
    (h2 : data.machine_id = some id)
    (h3 : get_machine_status_one id st = none) :
    get_machine_status_one id (on_message ⟨topic, some data⟩ now st).1 =
      some (mkMachine data now) ∧
    (mkMachine data now).last_seen = now ∧
    (mkMachine data now).online_status = data.online_status.getD "online" := by
  rw [on_message_report rfl h1 h2]
  exact ⟨getOne_applyFullReport_self st now id data, rfl, rfl⟩

/-- Witness for C5: the representative report (no `online_status` field)
ingested into the empty registry at time 0 yields an ONLINE record whose
`last_seen` is 0. -/
theorem C5_first_contact_witness :
    (isStatusTopic "machine_status/data" = false ∧
      reportPayloadW.machine_id = some "m1" ∧
      get_machine_status_one "m1" emptyState = none) ∧
    (get_machine_status_one "m1" (on_message reportMsgW 0 emptyState).1 =
        some (mkMachine reportPayloadW 0) ∧
      (mkMachine reportPayloadW 0).last_seen = 0 ∧
      (mkMachine reportPayloadW 0).online_status =
        reportPayloadW.online_status.getD "online") :=
  ⟨⟨by decide, rfl, rfl⟩,
    C5_first_contact emptyState 0 "machine_status/data" reportPayloadW "m1"
      (by decide) rfl rfl⟩

/-- Claim C5 counterexample: a first-contact full report whose payload
states `online_status = "offline"` creates a record whose status is
`offline`, not ONLINE — refuting "the resulting record has LivenessState =
ONLINE" for every first full report. -/
theorem C5_counterexample :
    (get_machine_status_one "m1"
        ((on_message ⟨"machine_status/data",
          some { machine_id := some "m1", online_status := some "offline" }⟩ 7
          emptyState).1)).map Machine.online_status = some "offline" ∧
    ¬ (get_machine_status_one "m1"
        ((on_message ⟨"machine_status/data",
          some { machine_id := some "m1", online_status := some "offline" }⟩ 7
          emptyState).1)).map Machine.online_status = some "online" :=
  ⟨by decide, by decide⟩

/-- Claim C6: a status-only message (for a known or unknown id) and an
offline-detector pass mutate only `online_status`: every record before and
after agrees on the whole `ResourceSnapshot` and on `last_seen`
(`optSameExceptStatus`), and a status-only message leaves every record of
any other id entirely unchanged. -/
theorem C6_status_only_frame (st : RegState) (hwf : WF st) :
    (∀ (topic : String) (data : Payload) (now : Int),
      isStatusTopic topic = true →
      (∀ id', optSameExceptStatus (get_machine_status_one id' st)
        (get_machine_status_one id' (on_message ⟨topic, some data⟩ now st).1)) ∧
      (∀ id', id' ≠ statusTopicId topic →
        get_machine_status_one id' (on_message ⟨topic, some data⟩ now st).1 =
          get_machine_status_one id' st)) ∧
    (∀ (now th : Int) (id' : String),
      optSameExceptStatus (get_machine_status_one id' st)
        (get_machine_status_one id' (offline_detector_tick now th st))) := by
  constructor
  · intro topic data now ht
    cases hl : lookupPairs (statusTopicId topic) st.machines with
    | none =>
      have heq : on_message ⟨topic, some data⟩ now st = (st, []) :=
        on_message_status_unknown_id rfl ht hl now
      rw [heq]
      exact ⟨fun id' => optSameExceptStatus_refl _, fun id' _ => rfl⟩
    | some a =>
      have heq : on_message ⟨topic, some data⟩ now st =
          ({ st with store := setStatusAt st.store a (data.status.getD "unknown") },
            [.statusUpdated (statusTopicId topic) (data.status.getD "unknown")]) :=
        on_message_status_known rfl ht hl now
      rw [heq]
      constructor
      · intro id'
        by_cases hid : id' = statusTopicId topic
        · have hl' : lookupPairs id' st.machines = some a := by
            rw [hid]
            exact hl
          have hself : get_machine_status_one id' st =
              some (readStore st.store a) := by
            unfold get_machine_status_one
            rw [hl', Option.map_some']
          rw [hself]
          have hupd := getOne_setStatus_self hwf hl' (data.status.getD "unknown")
          dsimp only
          rw [hupd]
          exact sameExceptStatus_setStatus _ _
        · dsimp only
          rw [getOne_setStatus_ne hwf hl hid]
          exact optSameExceptStatus_refl _
      · intro id' hid
        dsimp only
        exact getOne_setStatus_ne hwf hl hid _
  · intro now th id'
    rw [getOne_tick hwf now th id']
    cases get_machine_status_one id' st with
    | none => exact trivial
    | some m => exact sameExceptStatus_tickStep now th m

/-- Witness for C6 at the one-machine registry `stW`. -/
theorem C6_status_only_frame_witness :
    WF stW ∧
    ((∀ (topic : String) (data : Payload) (now : Int),
      isStatusTopic topic = true →
      (∀ id', optSameExceptStatus (get_machine_status_one id' stW)
        (get_machine_status_one id' (on_message ⟨topic, some data⟩ now stW).1)) ∧
      (∀ id', id' ≠ statusTopicId topic →
        get_machine_status_one id' (on_message ⟨topic, some data⟩ now stW).1 =
          get_machine_status_one id' stW)) ∧
    (∀ (now th : Int) (id' : String),
      optSameExceptStatus (get_machine_status_one id' stW)
        (get_machine_status_one id' (offline_detector_tick now th stW)))) :=
  ⟨by decide, C6_status_only_frame stW (by decide)⟩

/-- Claim C7 (amended): as long as every status-topic payload carries a
status field reading `online` or `offline` and every full report's
`online_status`, when present, reads `online` or `offline`, every record
in every reachable registry state is `online` or `offline`.  The
unrestricted claim fails: the status path stores `data.get('status',
'unknown')` verbatim, so the literal `unknown` (or any other string) can be
assigned after first contact (see counterexample). -/
theorem C7_good_statuses (es : List Event)
    (h : ∀ e ∈ es, goodEvent e = true) : GoodState (runEvents es) :=
  good_foldl es emptyState wf_emptyState goodState_emptyState h

/-- Witness for C7: a report, a well-formed offline correction, and a
sweep. -/
theorem C7_good_statuses_witness :
    (∀ e ∈ esGood, goodEvent e = true) ∧ GoodState (runEvents esGood) :=
  ⟨by decide, C7_good_statuses esGood (by decide)⟩

/-- Claim C7 counterexample: after the reachable trace `esUnknownStatus`
(a normal report for m1, then a status-topic message whose payload lacks
the status field) the record of m1 carries the status string `unknown` —
neither ONLINE nor OFFLINE — refuting "no operation ever assigns UNKNOWN
after first contact". -/
theorem C7_counterexample :
    (get_machine_status_one "m1" (runEvents esUnknownStatus)).map
      Machine.online_status = some "unknown" ∧
    ¬ ((get_machine_status_one "m1" (runEvents esUnknownStatus)).map
        Machine.online_status = some "online" ∨
      (get_machine_status_one "m1" (runEvents esUnknownStatus)).map
        Machine.online_status = some "offline") :=
  ⟨by decide, by decide⟩

/-- Claim C8 (amended): read-all (`machines.copy()`) is a shallow copy,
not a deep one: the id-to-record-reference table is fixed at read time, so
a later full report (which rebinds the id to a freshly built record
object) or new-record creation leaves the copy's view unchanged — but the
record objects themselves are shared, so the in-place mutations (a
status-only update or an offline-detector transition) performed after the
read are visible through the returned copy: dereferencing the copy then
yields exactly the live registry's view. -/
theorem C8_shallow_copy (st : RegState) (hwf : WF st) :
    (∀ (now : Int) (topic : String) (data : Payload) (mid : String),
      isStatusTopic topic = false → data.machine_id = some mid →
      viewCopy (get_machine_status_all st)
          ((on_message ⟨topic, some data⟩ now st).1).store =
        viewCopy (get_machine_status_all st) st.store) ∧
    (∀ (now : Int) (topic : String) (data : Payload),
      isStatusTopic topic = true →
      viewCopy (get_machine_status_all st)
          ((on_message ⟨topic, some data⟩ now st).1).store =
        view ((on_message ⟨topic, some data⟩ now st).1)) ∧
    (∀ (now th : Int),
      viewCopy (get_machine_status_all st)
          (offline_detector_tick now th st).store =
        view (offline_detector_tick now th st)) := by
  refine ⟨?_, ?_, ?_⟩
  · intro now topic data mid h1 h2
    have heq : on_message ⟨topic, some data⟩ now st =
        (applyFullReport now mid data st, [.machineUpdate mid]) :=
      on_message_report rfl h1 h2 now st
    rw [heq]
    exact viewCopy_append hwf [mkMachine data now]
  · intro now topic data ht
    cases hl : lookupPairs (statusTopicId topic) st.machines with
    | none =>
      have heq : on_message ⟨topic, some data⟩ now st = (st, []) :=
        on_message_status_unknown_id rfl ht hl now
      rw [heq]
      rfl
    | some a =>
      have heq : on_message ⟨topic, some data⟩ now st =
          ({ st with store := setStatusAt st.store a (data.status.getD "unknown") },
            [.statusUpdated (statusTopicId topic) (data.status.getD "unknown")]) :=
        on_message_status_known rfl ht hl now
      rw [heq]
      rfl
  · intro now th
    rfl

/-- Witness for C8: after reading the copy from the one-machine registry
`stW`, ingesting a fresh report for the new id m2 leaves the copy's view
unchanged. -/
theorem C8_shallow_copy_witness :
    (WF stW ∧ isStatusTopic "machine_status/data" = false ∧
      ({ machine_id := some "m2" } : Payload).machine_id = some "m2") ∧
    viewCopy (get_machine_status_all stW)
        ((on_message ⟨"machine_status/data", some { machine_id := some "m2" }⟩
          9 stW).1).store =
      viewCopy (get_machine_status_all stW) stW.store :=
  ⟨⟨by decide, by decide, rfl⟩,
    (C8_shallow_copy stW (by decide)).1 9 "machine_status/data"
      { machine_id := some "m2" } "m2" (by decide) rfl⟩

/-- Claim C8 counterexample: take the copy returned by read-all on `stW`,
then apply the status-only mutation `statusOfflineMsg`; dereferencing the
same copy now yields a different view — the registry mutation performed
after the read is visible through the returned copy, refuting "sharing no
references ... leaves the returned copy unchanged". -/
theorem C8_counterexample :
    viewCopy (get_machine_status_all stW)
        ((on_message statusOfflineMsg 10 stW).1).store ≠
      viewCopy (get_machine_status_all stW) stW.store := by
  decide

/-- Claim C9 (amended): read-all returns the records in dict insertion
order — deterministically: the view is a function of the registry state,
so two reads with no intervening mutation are identical — but it is not
sorted by hostname; the hostname-ascending presentation is produced by
`print_all_machines`, whose display order is a hostname-sorted permutation
of the registry contents. -/
theorem C9_read_all_order (st : RegState) :
    viewCopy (get_machine_status_all st) st.store = view st ∧
    (print_all_machines_order st).Pairwise
      (fun p q => p.2.hostname ≤ q.2.hostname) ∧
    (print_all_machines_order st).Perm (view st) :=
  ⟨rfl, sortByHostname_sorted (view st), sortByHostname_perm (view st)⟩

/-- Claim C9 counterexample: in the reachable registry `stTwoHosts`
(hostname zeta inserted before hostname alpha) read-all's sequence of
records carries the hostnames in insertion order zeta, alpha — which is
not ascending — refuting "deterministically ordered by hostname,
ascending" for `get_machine_status`. -/
theorem C9_counterexample :
    (view stTwoHosts).map (fun p => p.2.hostname) = ["zeta", "alpha"] ∧
    ¬ (view stTwoHosts).Pairwise (fun p q => p.2.hostname ≤ q.2.hostname) := by
  constructor
  · decide
  · intro h
    have hv : view stTwoHosts =
        [("m1", mkMachine reportZeta 0), ("m2", mkMachine reportAlpha 1)] := by
      decide
    rw [hv] at h
    rcases List.pairwise_cons.mp h with ⟨hhead, _⟩
    have hle : ("m1", mkMachine reportZeta 0).2.hostname ≤
        ("m2", mkMachine reportAlpha 1).2.hostname :=
      hhead ("m2", mkMachine reportAlpha 1) (List.mem_cons_self _ _)
    have hzeta : ("zeta" : String) ≤ "alpha" := hle
    have hlt : ("alpha" : String) < "zeta" :=
      String.lt_iff_toList_lt.mpr (by decide)
    exact absurd hzeta (not_le.mpr hlt)

/-- Claim C10 (amended): every field absent from a full report is stored
with a default, so the record never has a missing field; the defaults are
zero for every numeric field and the string `Unknown` for every string
field except `ip_address`, whose default is the empty string (line 101:
`data.get('ip_address', '')`). -/
theorem C10_defaults (st : RegState) (now : Int) (topic : String)
    (data : Payload) (id : String) (h1 : isStatusTopic topic = false)
    (h2 : data.machine_id = some id) :
    get_machine_status_one id (on_message ⟨topic, some data⟩ now st).1 =
      some (mkMachine data now) ∧
    (mkMachine data now).hostname = data.hostname.getD "Unknown" ∧
    (mkMachine data now).ip_address = data.ip_address.getD "" ∧
    (mkMachine data now).cpu_model = data.cpu_model.getD "Unknown" ∧
    (mkMachine data now).cpu_cores = data.cpu_cores.getD 0 ∧
    (mkMachine data now).cpu_usage_percent = data.cpu_usage_percent.getD 0 ∧
    (mkMachine data now).memory_total = data.memory_total.getD "Unknown" ∧
    (mkMachine data now).memory_available =
      data.memory_available.getD "Unknown" ∧
    (mkMachine data now).memory_usage_percent =
      data.memory_usage_percent.getD 0 ∧
    (mkMachine data now).storage_total = data.storage_total.getD "Unknown" ∧
    (mkMachine data now).storage_free = data.storage_free.getD "Unknown" ∧
    (mkMachine data now).storage_usage_percent =
      data.storage_usage_percent.getD 0 := by
  have heq : on_message ⟨topic, some data⟩ now st =
      (applyFullReport now id data st, [.machineUpdate id]) :=
    on_message_report rfl h1 h2 now st
  rw [heq]
  exact ⟨getOne_applyFullReport_self st now id data, rfl, rfl, rfl, rfl, rfl,
    rfl, rfl, rfl, rfl, rfl, rfl⟩

/-- Witness for C10: a report carrying only `machine_id` stores all the
defaults. -/
theorem C10_defaults_witness :
    (isStatusTopic "machine_status/data" = false ∧
      ({ machine_id := some "m1" } : Payload).machine_id = some "m1") ∧
    (get_machine_status_one "m1"
        (on_message ⟨"machine_status/data", some { machine_id := some "m1" }⟩
          3 emptyState).1 =
      some (mkMachine { machine_id := some "m1" } 3) ∧
    (mkMachine ({ machine_id := some "m1" } : Payload) 3).hostname =
      ({ machine_id := some "m1" } : Payload).hostname.getD "Unknown" ∧
    (mkMachine ({ machine_id := some "m1" } : Payload) 3).ip_address =
      ({ machine_id := some "m1" } : Payload).ip_address.getD "" ∧
    (mkMachine ({ machine_id := some "m1" } : Payload) 3).cpu_model =
      ({ machine_id := some "m1" } : Payload).cpu_model.getD "Unknown" ∧
    (mkMachine ({ machine_id := some "m1" } : Payload) 3).cpu_cores =
      ({ machine_id := some "m1" } : Payload).cpu_cores.getD 0 ∧
    (mkMachine ({ machine_id := some "m1" } : Payload) 3).cpu_usage_percent =
      ({ machine_id := some "m1" } : Payload).cpu_usage_percent.getD 0 ∧
    (mkMachine ({ machine_id := some "m1" } : Payload) 3).memory_total =
      ({ machine_id := some "m1" } : Payload).memory_total.getD "Unknown" ∧
    (mkMachine ({ machine_id := some "m1" } : Payload) 3).memory_available =
      ({ machine_id := some "m1" } : Payload).memory_available.getD "Unknown" ∧
    (mkMachine ({ machine_id := some "m1" } : Payload) 3).memory_usage_percent =
      ({ machine_id := some "m1" } : Payload).memory_usage_percent.getD 0 ∧
    (mkMachine ({ machine_id := some "m1" } : Payload) 3).storage_total =
      ({ machine_id := some "m1" } : Payload).storage_total.getD "Unknown" ∧
    (mkMachine ({ machine_id := some "m1" } : Payload) 3).storage_free =
      ({ machine_id := some "m1" } : Payload).storage_free.getD "Unknown" ∧
    (mkMachine ({ machine_id := some "m1" } : Payload) 3).storage_usage_percent =
      ({ machine_id := some "m1" } : Payload).storage_usage_percent.getD 0) :=
  ⟨⟨by decide, rfl⟩,
    C10_defaults emptyState 3 "machine_status/data" { machine_id := some "m1" }
      "m1" (by decide) rfl⟩

/-- Claim C10 counterexample: a report with no `ip_address` field stores
the empty string, not the string `Unknown`, refuting "Unknown for every
string field (... ip address ...)". -/
theorem C10_counterexample :
    (get_machine_status_one "m1"
        ((on_message ⟨"machine_status/data", some { machine_id := some "m1" }⟩
          3 emptyState).1)).map Machine.ip_address = some "" ∧
    ¬ (get_machine_status_one "m1"
        ((on_message ⟨"machine_status/data", some { machine_id := some "m1" }⟩
          3 emptyState).1)).map Machine.ip_address = some "Unknown" :=
  ⟨by decide, by decide⟩
